import Mathlib

/-!
Verification development for the tow-app dispatch & lifecycle engine.

Shallow embedding of the core data model and operations:
* `app/models/tow_request.py`, `app/models/other.py` — enums and rows
* `app/services/matching_service.py` — `accept_tow_request`
* `app/api/v1/tow_requests.py` — `update_tow_status`
* `app/services/payment_service.py` — `capture_payment`, `payout_driver`,
  `refund_payment`
* `app/services/pricing_service.py` — `calculate_tow_price`
* `app/utils/geo.py` — `calculate_distance`, `calculate_eta`

Database rows are value structures, the database session is an explicit
`DBState`, timestamps are abstract naturals, and identifiers (UUIDs) are
naturals.  Monetary arithmetic is embedded in exact rationals `ℚ`; the
source computes in Python floats and converts to `Decimal` via the shortest
decimal representation, and every concrete input used below is chosen far
from rounding boundaries so that the rational value and the float value
round to the same cent.  External effects (push notifications, the pub/sub
channel) carry no persistent state and are not part of `DBState`; the
payment gateway is an oracle boolean per call, matching the
`try/except stripe.error.StripeError` structure of the source.
-/

namespace TowApp

/-- Enum `TowStatus` from `app/models/tow_request.py`. -/
inductive TowStatus where
  | pending
  | searching
  | accepted
  | en_route_pickup
  | arrived_pickup
  | vehicle_loaded
  | en_route_dropoff
  | arrived_dropoff
  | completed
  | cancelled
deriving DecidableEq, Repr

/-- Enum `PaymentStatus` from `app/models/tow_request.py`. -/
inductive PaymentStatus where
  | pending
  | authorized
  | captured
  | refunded
  | failed
deriving DecidableEq, Repr

/-- Enum `OfferResponse` from `app/models/other.py`. -/
inductive OfferResponse where
  | pending
  | accepted
  | rejected
  | expired
deriving DecidableEq, Repr

/-- Enum `TransactionType` from `app/models/other.py`. -/
inductive TransactionType where
  | charge
  | refund
  | payout
  | platform_fee
deriving DecidableEq, Repr

/-- The columns of a `tow_requests` row that the dispatch/lifecycle/payment
code reads or writes (`app/models/tow_request.py`). -/
structure TowRequest where
  id : Nat
  customer_id : Nat
  driver_id : Option Nat
  status : TowStatus
  accepted_at : Option Nat
  arrived_pickup_at : Option Nat
  loaded_at : Option Nat
  arrived_dropoff_at : Option Nat
  completed_at : Option Nat
  cancelled_at : Option Nat
  payment_intent_id : Option Nat
  payment_status : PaymentStatus
  quoted_price : ℚ
  driver_payout : ℚ
  platform_fee : ℚ
deriving DecidableEq, Repr

/-- A `tow_request_offers` row (`app/models/other.py`). -/
structure TowRequestOffer where
  tow_request_id : Nat
  driver_id : Nat
  response : OfferResponse
  responded_at : Option Nat
  rejection_reason : Option Nat
deriving DecidableEq, Repr

/-- A `transactions` row; the columns the payment service writes
(`app/models/other.py`). -/
structure Transaction where
  tow_request_id : Nat
  customer_id : Nat
  driver_id : Option Nat
  amount : ℚ
  transaction_type : TransactionType
deriving DecidableEq, Repr

/-- The slice of a `drivers` row read by `payout_driver`
(`app/models/driver.py`): identity and Stripe Connect account. -/
structure DriverRow where
  id : Nat
  bank_account_id : Option Nat
deriving DecidableEq, Repr

/-- The persistent store as seen by the services under verification. -/
structure DBState where
  jobs : List TowRequest
  offers : List TowRequestOffer
  drivers : List DriverRow
  transactions : List Transaction
deriving DecidableEq, Repr

/-- Lookup `select(TowRequest).where(TowRequest.id == tow_request_id)` followed by
`scalar_one_or_none()`. -/
def findJob (s : DBState) (jid : Nat) : Option TowRequest :=
  s.jobs.find? (fun j => j.id == jid)

/-- Write back a mutated job row (the ORM mutates the fetched row in
place; rows are keyed by `id`). -/
def setJob (s : DBState) (jid : Nat) (j : TowRequest) : DBState :=
  { s with jobs := s.jobs.map (fun k => if k.id = jid then j else k) }

/-- Append `self.db.add(transaction)` for a transactions row. -/
def addTransaction (s : DBState) (t : Transaction) : DBState :=
  { s with transactions := s.transactions ++ [t] }

/-! Section: acceptance resolver, `MatchingService.accept_tow_request`
(`app/services/matching_service.py` lines 159-223).

The source is a read-then-write sequence: it SELECTs the job, checks the
status in Python, then mutates the row and commits with no conditional
guard on the UPDATE.  We split it into its two phases against the shared
store — the status check performed on the state as read, and the
unconditional write applied at commit — and define the sequential call as
check-then-apply.  Interleaved executions of two calls are then schedules
over these atomic phases. -/

/-- Phase 1 of `accept_tow_request`: fetch the job and check
`status in [TowStatus.PENDING, TowStatus.SEARCHING]` (lines 171-182). -/
def acceptCheck (s : DBState) (jid : Nat) : Bool :=
  match findJob s jid with
  | none => false
  | some j => j.status = TowStatus.pending ∨ j.status = TowStatus.searching

/-- The row mutation on the job (lines 184-187): assign the driver, set
status `ACCEPTED`, stamp `accepted_at`. -/
def applyAcceptJob (j : TowRequest) (did now : Nat) : TowRequest :=
  { j with driver_id := some did, status := TowStatus.accepted,
           accepted_at := some now }

/-- The offer mutations (lines 189-211): the caller's own offer becomes
`ACCEPTED` with `responded_at` stamped; every other offer for the same job
— whatever its current response — becomes `EXPIRED`; offers of other jobs
are untouched. -/
def applyAcceptOffer (o : TowRequestOffer) (jid did now : Nat) :
    TowRequestOffer :=
  if o.tow_request_id = jid then
    if o.driver_id = did then
      { o with response := OfferResponse.accepted, responded_at := some now }
    else
      { o with response := OfferResponse.expired }
  else o

/-- Phase 2 of `accept_tow_request`: the writes flushed by
`await self.db.commit()` (lines 184-213), applied unconditionally — the
source re-checks nothing at write time. -/
def acceptApply (s : DBState) (jid did now : Nat) : DBState :=
  { s with
    jobs := s.jobs.map (fun j => if j.id = jid then applyAcceptJob j did now
                                 else j),
    offers := s.offers.map (fun o => applyAcceptOffer o jid did now) }

/-- Function `accept_tow_request` run without interference: check, then commit the
writes; returns `False` (state unchanged) when the job is missing or its
status is not PENDING/SEARCHING, `True` otherwise.  The customer
notification at lines 216-221 is a fire-and-forget external effect with no
`DBState` footprint. -/
def accept_tow_request (s : DBState) (jid did now : Nat) : Bool × DBState :=
  if acceptCheck s jid then (true, acceptApply s jid did now)
  else (false, s)

/-- Two drivers `x` then `y` race on the same job under the interleaving
read(x), read(y), commit(x), commit(y): both status checks execute against
the initial state before either commit lands.  Each component step is
atomic; the phases are exactly those of `accept_tow_request`, which guards
its write only by the phase-1 check.  Returns (x's result, y's result,
final state). -/
def lostUpdateRun (s : DBState) (jid x y now : Nat) :
    Bool × Bool × DBState :=
  let okX := acceptCheck s jid
  let okY := acceptCheck s jid
  let s1 := if okX then acceptApply s jid x now else s
  let s2 := if okY then acceptApply s1 jid y now else s1
  (okX, okY, s2)

/-! Section: payment orchestrator (`app/services/payment_service.py`).

Stripe calls are modelled by oracle booleans (`gatewayOk`, `transferOk`):
`True` means the call returns, `False` means it raises `StripeError`,
which the source catches and converts to a `False` return with no further
writes in that call. -/

/-- Method `PaymentService.payout_driver` (lines 105-170): requires a job with an
assigned driver whose `bank_account_id` is set; on a successful transfer
records a PAYOUT and a PLATFORM_FEE transaction and returns `True`;
returns `False` (no writes) when the driver or account is missing or the
transfer raises. -/
def payout_driver (s : DBState) (jid : Nat) (transferOk : Bool) :
    Bool × DBState :=
  match findJob s jid with
  | none => (false, s)
  | some j =>
    match j.driver_id with
    | none => (false, s)
    | some did =>
      match s.drivers.find? (fun d => d.id == did) with
      | none => (false, s)
      | some drv =>
        match drv.bank_account_id with
        | none => (false, s)
        | some _ =>
          if transferOk then
            (true,
             addTransaction
               (addTransaction s
                 { tow_request_id := jid, customer_id := j.customer_id,
                   driver_id := some did, amount := j.driver_payout,
                   transaction_type := TransactionType.payout })
               { tow_request_id := jid, customer_id := j.customer_id,
                 driver_id := some did, amount := j.platform_fee,
                 transaction_type := TransactionType.platform_fee })
          else (false, s)

/-- Method `PaymentService.capture_payment` (lines 60-103): `False` when the job
or its `payment_intent_id` is missing, or when the gateway capture raises
(caught, no writes).  On success: payment status `CAPTURED`, a CHARGE
transaction for `quoted_price`, then `payout_driver` — whose result is
ignored — and `True`. -/
def capture_payment (s : DBState) (jid : Nat) (gatewayOk transferOk : Bool) :
    Bool × DBState :=
  match findJob s jid with
  | none => (false, s)
  | some j =>
    match j.payment_intent_id with
    | none => (false, s)
    | some _ =>
      if gatewayOk then
        let s1 := setJob s jid { j with payment_status := PaymentStatus.captured }
        let s2 := addTransaction s1
          { tow_request_id := jid, customer_id := j.customer_id,
            driver_id := j.driver_id, amount := j.quoted_price,
            transaction_type := TransactionType.charge }
        (true, (payout_driver s2 jid transferOk).2)
      else (false, s)

/-- Method `PaymentService.refund_payment` (lines 172-216): `False` when the job
or its `payment_intent_id` is missing, or when the gateway refund raises
(caught, no writes).  On success: payment status `REFUNDED`, a REFUND
transaction for `quoted_price`, and `True`. -/
def refund_payment (s : DBState) (jid : Nat) (gatewayOk : Bool) :
    Bool × DBState :=
  match findJob s jid with
  | none => (false, s)
  | some j =>
    match j.payment_intent_id with
    | none => (false, s)
    | some _ =>
      if gatewayOk then
        let s1 := setJob s jid { j with payment_status := PaymentStatus.refunded }
        let s2 := addTransaction s1
          { tow_request_id := jid, customer_id := j.customer_id,
            driver_id := none, amount := j.quoted_price,
            transaction_type := TransactionType.refund }
        (true, s2)
      else (false, s)

/-! Section: status updates, `update_tow_status`
(`app/api/v1/tow_requests.py` lines 148-203). -/

/-- Errors raised by the endpoint before any write: 404 when the job is
missing, 403 when the caller is not the assigned driver. -/
inductive HttpError where
  | notFound
  | forbidden
deriving DecidableEq, Repr

/-- The timestamp branch of `update_tow_status` (lines 178-187): the
milestone column for the requested status is (re)stamped with the current
time; EN_ROUTE statuses and all others stamp nothing. -/
def stampTimestamp (j : TowRequest) (st : TowStatus) (now : Nat) :
    TowRequest :=
  match st with
  | TowStatus.arrived_pickup => { j with arrived_pickup_at := some now }
  | TowStatus.vehicle_loaded => { j with loaded_at := some now }
  | TowStatus.arrived_dropoff => { j with arrived_dropoff_at := some now }
  | TowStatus.completed => { j with completed_at := some now }
  | _ => j

/-- Endpoint `update_tow_status`: after the 404/403 guards the requested status is
written unconditionally — the endpoint performs no transition-legality or
terminal-state check of any kind — its milestone timestamp is stamped, and
for `COMPLETED` the payment capture is attempted; the commit at line 192
runs regardless of the capture result.  `requester` is the driver profile
id of the authenticated caller. -/
def update_tow_status (s : DBState) (jid : Nat) (requester : Nat)
    (newStatus : TowStatus) (now : Nat) (gatewayOk transferOk : Bool) :
    Except HttpError DBState :=
  match findJob s jid with
  | none => Except.error HttpError.notFound
  | some j =>
    if j.driver_id = some requester then
      let j1 := { stampTimestamp j newStatus now with status := newStatus }
      let s1 := setJob s jid j1
      if newStatus = TowStatus.completed then
        Except.ok (capture_payment s1 jid gatewayOk transferOk).2
      else
        Except.ok s1
    else Except.error HttpError.forbidden

/-! Section: pricing engine, `PricingService.calculate_tow_price`
(`app/services/pricing_service.py` lines 13-123).

The lookup rows and the business-logic constants of `app/config.py` are
passed as parameters; monetary arithmetic is embedded in exact rationals.
The output fields are rounded to cents by Python's
`round(Decimal(str(x)), 2)`, which is round-half-to-even. -/

/-- The pricing columns of a `service_types` row. -/
structure ServiceTypeRow where
  base_price : ℚ
  per_mile_rate : ℚ
  included_miles : ℚ
deriving DecidableEq, Repr

/-- The pricing column of a `customer_vehicle_types` row. -/
structure VehicleTypeRow where
  price_multiplier : ℚ
deriving DecidableEq, Repr

/-- The pricing column of a `tow_reasons` row. -/
structure TowReasonRow where
  price_adjustment : ℚ
deriving DecidableEq, Repr

/-- The pricing constants of `app/config.py` (lines 59-70). -/
structure PricingSettings where
  NIGHT_SURCHARGE_MULTIPLIER : ℚ
  WEEKEND_SURCHARGE_MULTIPLIER : ℚ
  SURGE_MULTIPLIER : ℚ
  DRIVER_BASE_RATE : ℚ
  DRIVER_PER_MILE_RATE : ℚ
  CUSTOMER_MARKUP_PERCENTAGE : ℚ
deriving DecidableEq, Repr

/-- The default values of those constants: 1.25, 1.15, 1.5, 100.0, 4.0,
15.0. -/
def defaultSettings : PricingSettings :=
  { NIGHT_SURCHARGE_MULTIPLIER := 5/4, WEEKEND_SURCHARGE_MULTIPLIER := 23/20,
    SURGE_MULTIPLIER := 3/2, DRIVER_BASE_RATE := 100,
    DRIVER_PER_MILE_RATE := 4, CUSTOMER_MARKUP_PERCENTAGE := 15 }

/-- The seeded `standard_tow` service row (`populate_lookup_tables.py`
line 110): base 75.00, per-mile 3.50, included 5. -/
def standardTow : ServiceTypeRow :=
  { base_price := 75, per_mile_rate := 7/2, included_miles := 5 }

/-- The seeded `sedan` vehicle row: multiplier 1.0. -/
def sedanRow : VehicleTypeRow := { price_multiplier := 1 }

/-- The seeded `breakdown` reason row: adjustment 0. -/
def breakdownRow : TowReasonRow := { price_adjustment := 0 }

/-- Round-half-to-even to an integer.  Ties (fractional part exactly 1/2)
go to the even neighbour; this is the rounding of Python `Decimal` with the
default `ROUND_HALF_EVEN` context, as used by `round(Decimal(...), 2)`. -/
def rhe (q : ℚ) : ℤ :=
  if q - Int.floor q < 1/2 then Int.floor q
  else if q - Int.floor q > 1/2 then Int.floor q + 1
  else if Even (Int.floor q) then Int.floor q
  else Int.floor q + 1

/-- Rounding `round(Decimal(str(x)), 2)`: round to cents, half to even. -/
def round2 (q : ℚ) : ℚ := (rhe (100 * q) : ℚ) / 100

/-- Method `PricingService._get_time_multiplier` (lines 111-123): night hours
(hour ≥ 22 or < 6) take the night multiplier, else weekends
(`weekday() >= 5`) the weekend multiplier, else 1. -/
def get_time_multiplier (st : PricingSettings) (hour weekday : Nat) : ℚ :=
  if 22 ≤ hour ∨ hour < 6 then st.NIGHT_SURCHARGE_MULTIPLIER
  else if 5 ≤ weekday then st.WEEKEND_SURCHARGE_MULTIPLIER
  else 1

/-- Lines 55-73: `subtotal = (base_price + mileage_fee +
vehicle_adjustment + reason_fee) * time_multiplier * surge_multiplier`
with `mileage_fee = max(0, distance - included_miles) * per_mile_rate` and
`vehicle_adjustment = base_price * (vehicle_multiplier - 1)`. -/
def subtotalCalc (st : PricingSettings) (sp : ServiceTypeRow)
    (vp : VehicleTypeRow) (rp : TowReasonRow) (d : ℚ) (hour weekday : Nat)
    (is_surge : Bool) : ℚ :=
  (sp.base_price + max 0 (d - sp.included_miles) * sp.per_mile_rate
      + sp.base_price * (vp.price_multiplier - 1) + rp.price_adjustment)
    * get_time_multiplier st hour weekday
    * (if is_surge then st.SURGE_MULTIPLIER else 1)

/-- Lines 76-78: `driver_standard_rate = DRIVER_BASE_RATE +
distance * DRIVER_PER_MILE_RATE`. -/
def driver_standard_rate (st : PricingSettings) (d : ℚ) : ℚ :=
  st.DRIVER_BASE_RATE + d * st.DRIVER_PER_MILE_RATE

/-- Line 81: `1 + CUSTOMER_MARKUP_PERCENTAGE / 100`. -/
def markup_multiplier (st : PricingSettings) : ℚ :=
  1 + st.CUSTOMER_MARKUP_PERCENTAGE / 100

/-- Line 82: `customer_price = max(subtotal,
driver_standard_rate * markup_multiplier)`, before rounding. -/
def customer_price_raw (st : PricingSettings) (sp : ServiceTypeRow)
    (vp : VehicleTypeRow) (rp : TowReasonRow) (d : ℚ) (hour weekday : Nat)
    (is_surge : Bool) : ℚ :=
  max (subtotalCalc st sp vp rp d hour weekday is_surge)
      (driver_standard_rate st d * markup_multiplier st)

/-- Line 83: `driver_payout = driver_standard_rate`, before rounding. -/
def driver_payout_raw (st : PricingSettings) (d : ℚ) : ℚ :=
  driver_standard_rate st d

/-- Line 84: `platform_fee = customer_price - driver_payout`, before
rounding. -/
def platform_fee_raw (st : PricingSettings) (sp : ServiceTypeRow)
    (vp : VehicleTypeRow) (rp : TowReasonRow) (d : ℚ) (hour weekday : Nat)
    (is_surge : Bool) : ℚ :=
  customer_price_raw st sp vp rp d hour weekday is_surge
    - driver_payout_raw st d

/-- The `customer_price` output field (line 92), persisted into
`quoted_price` at `create_tow_request` (line 94): rounded to cents. -/
def quoted_price_field (st : PricingSettings) (sp : ServiceTypeRow)
    (vp : VehicleTypeRow) (rp : TowReasonRow) (d : ℚ) (hour weekday : Nat)
    (is_surge : Bool) : ℚ :=
  round2 (customer_price_raw st sp vp rp d hour weekday is_surge)

/-- The `driver_payout` output field (line 93), rounded to cents. -/
def driver_payout_field (st : PricingSettings) (d : ℚ) : ℚ :=
  round2 (driver_payout_raw st d)

/-- The `platform_fee` output field (line 94), rounded to cents. -/
def platform_fee_field (st : PricingSettings) (sp : ServiceTypeRow)
    (vp : VehicleTypeRow) (rp : TowReasonRow) (d : ℚ) (hour weekday : Nat)
    (is_surge : Bool) : ℚ :=
  round2 (platform_fee_raw st sp vp rp d hour weekday is_surge)

/-! Section: geo utility (`app/utils/geo.py`). -/

/-- Truncation toward zero of a rational, as Python `int()`. -/
def truncQ (x : ℚ) : ℤ :=
  if 0 ≤ x then Int.floor x else Int.ceil x

/-- Function `calculate_eta` (lines 30-47): 0 for non-positive distance, else
`max(1, int(distance / speed * 60))`. -/
def calculate_eta (distance_miles : ℚ) (average_speed_mph : ℚ) : ℤ :=
  if distance_miles ≤ 0 then 0
  else max 1 (truncQ (distance_miles / average_speed_mph * 60))

/-- The ETA the spec words describe: `ceil-to-int(distance/speed*60)`,
floored at 1 minute for positive distance, 0 for zero distance.  Stated
separately from `calculate_eta` to compare the code with the spec. -/
def etaCeilSpec (distance_miles : ℚ) (average_speed_mph : ℚ) : ℤ :=
  if distance_miles ≤ 0 then 0
  else max 1 (Int.ceil (distance_miles / average_speed_mph * 60))

/-- Degrees to radians, `math.radians`. -/
noncomputable def toRadians (x : ℝ) : ℝ := x * Real.pi / 180

/-- Function `calculate_distance` (lines 4-28): haversine distance in miles on a
mean Earth radius of 3956 miles.  Points are (latitude, longitude) in
degrees. -/
noncomputable def calculate_distance (p1 p2 : ℝ × ℝ) : ℝ :=
  2 * Real.arcsin (Real.sqrt
      (Real.sin ((toRadians p2.1 - toRadians p1.1) / 2) ^ 2
        + Real.cos (toRadians p1.1) * Real.cos (toRadians p2.1)
          * Real.sin ((toRadians p2.2 - toRadians p1.2) / 2) ^ 2))
    * 3956

/-! Section: concrete fixtures for evaluation. -/

/-- A freshly created job: SEARCHING, no driver, payment authorized, with
the money fields the pricing engine produces for a 5.208-mile standard
tow. -/
def baseJob : TowRequest :=
  { id := 1, customer_id := 2, driver_id := none,
    status := TowStatus.searching, accepted_at := none,
    arrived_pickup_at := none, loaded_at := none, arrived_dropoff_at := none,
    completed_at := none, cancelled_at := none, payment_intent_id := some 99,
    payment_status := PaymentStatus.authorized, quoted_price := 13896/100,
    driver_payout := 12083/100, platform_fee := 1812/100 }

/-- A store with no rows at all. -/
def emptyState : DBState :=
  { jobs := [], offers := [], drivers := [], transactions := [] }

/-- A SEARCHING job with two offers out: driver 10 still pending, driver 20
already rejected. -/
def raceState : DBState :=
  { jobs := [baseJob],
    offers := [{ tow_request_id := 1, driver_id := 10,
                 response := OfferResponse.pending, responded_at := none,
                 rejection_reason := none },
               { tow_request_id := 1, driver_id := 20,
                 response := OfferResponse.rejected, responded_at := some 4,
                 rejection_reason := some 1 }],
    drivers := [], transactions := [] }

/-- The job of `baseJob` already COMPLETED by driver 10, its pickup and
completion timestamps stamped. -/
def completedJob : TowRequest :=
  { baseJob with status := TowStatus.completed, driver_id := some 10,
                 arrived_pickup_at := some 1, completed_at := some 3 }

/-- A store holding only `completedJob`. -/
def termState : DBState :=
  { jobs := [completedJob], offers := [], drivers := [], transactions := [] }

/-- The job of `baseJob` at ARRIVED_DROPOFF with driver 10 assigned. -/
def dropoffJob : TowRequest :=
  { baseJob with status := TowStatus.arrived_dropoff, driver_id := some 10,
                 arrived_pickup_at := some 1, loaded_at := some 2,
                 arrived_dropoff_at := some 3 }

/-- Driver 10, Stripe Connect payee account configured. -/
def driver10 : DriverRow := { id := 10, bank_account_id := some 7 }

/-- A store with `dropoffJob` about to report COMPLETED. -/
def preCompleteState : DBState :=
  { jobs := [dropoffJob], offers := [], drivers := [driver10],
    transactions := [] }

/-- The job of `baseJob` with no payment intent attached. -/
def noIntentJob : TowRequest := { baseJob with payment_intent_id := none }

/-- A store holding only `noIntentJob`. -/
def noIntentState : DBState :=
  { jobs := [noIntentJob], offers := [], drivers := [], transactions := [] }

/-! Section: theorems. -/

/-- C10: calling accept with a job id that matches no tow job returns
`False` without modifying any job or offer state — the same silent
race-lost result as losing to another driver, with no exception
(`matching_service.py` lines 171-182 return, they do not raise). -/
theorem accept_missing_job_race_lost (s : DBState) (jid did now : Nat)
    (h : findJob s jid = none) :
    accept_tow_request s jid did now = (false, s) := by
  simp [accept_tow_request, acceptCheck, h]

theorem accept_missing_job_race_lost_witness :
    findJob emptyState 1 = none ∧
      accept_tow_request emptyState 1 10 0 = (false, emptyState) :=
  ⟨by decide, accept_missing_job_race_lost emptyState 1 10 0 (by decide)⟩

/-- C5 counterexample: on a successful accept by driver 10, driver 20's
offer — which was already `rejected` — is overwritten to `expired`,
because lines 203-211 of `matching_service.py` expire every offer with
`driver_id != winner` regardless of its current response.  The claim that
a rejected offer remains rejected is false. -/
theorem accept_overwrites_rejected_offer :
    raceState.offers.map TowRequestOffer.response
        = [OfferResponse.pending, OfferResponse.rejected]
      ∧ (accept_tow_request raceState 1 10 5).1 = true
      ∧ (accept_tow_request raceState 1 10 5).2.offers.map
            TowRequestOffer.response
          = [OfferResponse.accepted, OfferResponse.expired] := by
  decide

/-- C1 (code evaluated at the failing interleaving): on a SEARCHING job
with no driver, drivers 10 and 20 race; under the schedule where both
status reads precede both commits, both `accept` calls return `True` and
driver 20's commit silently overwrites driver 10's assignment.  The
read-then-write of `accept_tow_request` has no compare-and-swap guard, so
mutual exclusion fails. -/
theorem accept_race_both_win :
    (lostUpdateRun raceState 1 10 20 7).1 = true
      ∧ (lostUpdateRun raceState 1 10 20 7).2.1 = true
      ∧ ((findJob (lostUpdateRun raceState 1 10 20 7).2.2 1).map
            TowRequest.driver_id) = some (some 20) := by
  decide

/-- C3 (code evaluated at the failing input): a driver moves a COMPLETED
job back to ARRIVED_PICKUP; `update_tow_status` raises nothing, applies
the transition, and restamps `arrived_pickup_at` (previously stamped at
time 1) to time 9.  No terminal-state or transition-legality check exists
in `app/api/v1/tow_requests.py` lines 148-203. -/
theorem update_status_ignores_terminal_state :
    (update_tow_status termState 1 10 TowStatus.arrived_pickup 9 true
        true).toOption.map
        (fun s => (findJob s 1).map
          (fun j => (j.status, j.arrived_pickup_at)))
      = some (some (TowStatus.arrived_pickup, some 9)) := by
  decide

/-- C4 counterexample: driver 10 reports COMPLETED on the job at
ARRIVED_DROPOFF and the payment capture fails (gateway error); the
endpoint still returns success and commits the job as COMPLETED — the
claim that the transition is not committed on capture failure is false.
Payment status stays `authorized` and no transaction is recorded. -/
theorem capture_failure_still_commits_completed :
    (update_tow_status preCompleteState 1 10 TowStatus.completed 9 false
        true).toOption.map
        (fun s => ((findJob s 1).map TowRequest.status,
                   (findJob s 1).map TowRequest.payment_status,
                   s.transactions.length))
      = some (some TowStatus.completed, some PaymentStatus.authorized, 0) := by
  decide

/-- C6 counterexample: refunding the job whose `payment_intent_id` is
absent returns `False` (`payment_service.py` line 181-182), not the
no-op success the claim states; the state is unchanged. -/
theorem refund_without_intent_returns_false :
    (noIntentState.jobs.map TowRequest.payment_intent_id = [none])
      ∧ refund_payment noIntentState 1 true = (false, noIntentState) :=
  ⟨by decide, rfl⟩

/-- C8 counterexample: at distance 1 mile and speed 35 mph the code's ETA
is `max(1, int(60/35)) = 1`, but the claimed ceiling formula gives
`max(1, ceil(60/35)) = 2` — `calculate_eta` truncates, it does not take
the ceiling. -/
theorem eta_is_not_ceiling : calculate_eta 1 35 ≠ etaCeilSpec 1 35 := by
  have hx : ((1 : ℚ) / 35 * 60) = 12 / 7 := by norm_num
  have hf : Int.floor ((12 : ℚ) / 7) = 1 := by
    rw [Int.floor_eq_iff] <;> norm_num
  have hc : Int.ceil ((12 : ℚ) / 7) = 2 := by
    rw [Int.ceil_eq_iff] <;> norm_num
  have h0 : ¬ ((1 : ℚ) ≤ 0) := by norm_num
  have hnn : (0 : ℚ) ≤ 12 / 7 := by norm_num
  simp only [calculate_eta, etaCeilSpec, truncQ, hx, if_neg h0, if_pos hnn,
    hf, hc]
  decide

/-- Evaluation rule for `rhe` below the tie point. -/
theorem rhe_eq_floor (q : ℚ) (n : ℤ) (h1 : (n : ℚ) ≤ q)
    (h2 : q < (n : ℚ) + 1/2) : rhe q = n := by
  have hfl : Int.floor q = n := by
    rw [Int.floor_eq_iff]
    exact ⟨h1, by push_cast; linarith⟩
  unfold rhe
  rw [hfl, if_pos (by push_cast; linarith)]

/-- Evaluation rule for `rhe` above the tie point. -/
theorem rhe_eq_floor_add_one (q : ℚ) (n : ℤ) (h1 : (n : ℚ) + 1/2 < q)
    (h2 : q < (n : ℚ) + 1) : rhe q = n + 1 := by
  have hfl : Int.floor q = n := by
    rw [Int.floor_eq_iff]
    exact ⟨by push_cast; linarith, by push_cast; linarith⟩
  unfold rhe
  rw [hfl, if_neg (by push_cast; linarith), if_pos (by push_cast; linarith)]

/-- Half-even rounding moves a value by at most 1/2. -/
theorem rhe_err (q : ℚ) : |(rhe q : ℚ) - q| ≤ 1/2 := by
  have l1 := Int.floor_le q
  have l2 := Int.lt_floor_add_one q
  unfold rhe
  split_ifs with h1 h2 h3
  · rw [abs_le]
    constructor <;> push_cast <;> linarith
  · rw [abs_le]
    push_neg at h1
    constructor <;> push_cast <;> linarith
  · rw [abs_le]
    push_neg at h1 h2
    constructor <;> push_cast <;> linarith
  · rw [abs_le]
    push_neg at h1 h2
    constructor <;> push_cast <;> linarith

/-- Rounding the three money amounts independently keeps the sum of the
parts within one cent of the rounded whole. -/
theorem round2_balance (a c : ℚ) :
    |round2 a + round2 (c - a) - round2 c| ≤ 1/100 := by
  have e1 := rhe_err (100 * a)
  have e2 := rhe_err (100 * (c - a))
  have e3 := rhe_err (100 * c)
  rw [abs_le] at e1 e2 e3
  have hkq : |((rhe (100 * a) + rhe (100 * (c - a)) - rhe (100 * c) : ℤ) : ℚ)|
      ≤ 3/2 := by
    rw [abs_le]
    constructor <;> push_cast <;> linarith [e1.1, e1.2, e2.1, e2.2, e3.1, e3.2]
  have hint : |rhe (100 * a) + rhe (100 * (c - a)) - rhe (100 * c)| ≤ 1 := by
    by_contra hcon
    push_neg at hcon
    have h2 : 2 ≤ |rhe (100 * a) + rhe (100 * (c - a)) - rhe (100 * c)| := by
      omega
    have h2q : (2 : ℚ) ≤
        ((|rhe (100 * a) + rhe (100 * (c - a)) - rhe (100 * c)| : ℤ) : ℚ) := by
      exact_mod_cast h2
    rw [Int.cast_abs] at h2q
    linarith [hkq]
  have hk1 : |((rhe (100 * a) + rhe (100 * (c - a)) - rhe (100 * c) : ℤ) : ℚ)|
      ≤ 1 := by
    rw [← Int.cast_abs]
    exact_mod_cast hint
  have heq : round2 a + round2 (c - a) - round2 c
      = ((rhe (100 * a) + rhe (100 * (c - a)) - rhe (100 * c) : ℤ) : ℚ) / 100 := by
    unfold round2
    push_cast
    ring
  rw [heq, abs_div, abs_of_pos (by norm_num : (0:ℚ) < 100)]
  rw [div_le_div_iff (by norm_num) (by norm_num)]
  linarith [hk1]

/-- C2 counterexample: at distance 5.208 miles with the seeded
`standard_tow`/`sedan`/`breakdown` parameters on a midday weekday with no
surge, the persisted fields are driver_payout = 120.83, platform_fee =
18.12, quoted_price = 138.96 (raw values 120.832, 18.1248, 138.9568,
each rounded half-even to cents independently), and
120.83 + 18.12 = 138.95 ≠ 138.96 — exact decimal equality fails. -/
theorem money_fields_rounding_mismatch :
    driver_payout_field defaultSettings (651/125)
        + platform_fee_field defaultSettings standardTow sedanRow
            breakdownRow (651/125) 12 2 false
      ≠ quoted_price_field defaultSettings standardTow sedanRow
          breakdownRow (651/125) 12 2 false := by
  have hdp : driver_payout_raw defaultSettings (651/125) = 15104/125 := by
    norm_num [driver_payout_raw, driver_standard_rate, defaultSettings]
  have hmax0 : max (0:ℚ) (651/125 - standardTow.included_miles) = 26/125 := by
    rw [show (651/125 : ℚ) - standardTow.included_miles = 26/125 by
      norm_num [standardTow]]
    exact max_eq_right (by norm_num)
  have hgtm : get_time_multiplier defaultSettings 12 2 = 1 := by
    norm_num [get_time_multiplier]
  have hsub : subtotalCalc defaultSettings standardTow sedanRow breakdownRow
      (651/125) 12 2 false = 9466/125 := by
    rw [subtotalCalc, hmax0, hgtm]
    norm_num [standardTow, sedanRow, breakdownRow]
  have hcp : customer_price_raw defaultSettings standardTow sedanRow
      breakdownRow (651/125) 12 2 false = 86848/625 := by
    rw [customer_price_raw, hsub,
      show driver_standard_rate defaultSettings (651/125)
          * markup_multiplier defaultSettings = 86848/625 by
        norm_num [driver_standard_rate, markup_multiplier, defaultSettings]]
    exact max_eq_right (by norm_num)
  have hpf : platform_fee_raw defaultSettings standardTow sedanRow
      breakdownRow (651/125) 12 2 false = 11328/625 := by
    rw [platform_fee_raw, hcp, hdp]
    norm_num
  have r1 : rhe (100 * (15104/125 : ℚ)) = 12083 :=
    rhe_eq_floor _ 12083 (by norm_num) (by norm_num)
  have r2 : rhe (100 * (11328/625 : ℚ)) = 1812 :=
    rhe_eq_floor _ 1812 (by norm_num) (by norm_num)
  have r3 : rhe (100 * (86848/625 : ℚ)) = 13896 := by
    have := rhe_eq_floor_add_one (100 * (86848/625 : ℚ)) 13895 (by norm_num)
      (by norm_num)
    omega
  rw [driver_payout_field, platform_fee_field, quoted_price_field, round2,
    round2, round2, hdp, hpf, hcp, r1, r2, r3]
  norm_num

/-- C2 amended: before rounding, `driver_payout + platform_fee =
customer_price` exactly (the platform fee is defined as the difference);
the three persisted fields are each rounded to cents independently, so
their identity holds only to within one cent. -/
theorem money_fields_balance (st : PricingSettings) (sp : ServiceTypeRow)
    (vp : VehicleTypeRow) (rp : TowReasonRow) (d : ℚ) (hour weekday : Nat)
    (is_surge : Bool) :
    driver_payout_raw st d
          + platform_fee_raw st sp vp rp d hour weekday is_surge
        = customer_price_raw st sp vp rp d hour weekday is_surge
      ∧ |driver_payout_field st d
          + platform_fee_field st sp vp rp d hour weekday is_surge
          - quoted_price_field st sp vp rp d hour weekday is_surge|
        ≤ 1/100 := by
  constructor
  · unfold platform_fee_raw
    ring
  · have h := round2_balance (driver_payout_raw st d)
      (customer_price_raw st sp vp rp d hour weekday is_surge)
    simpa [driver_payout_field, platform_fee_field, quoted_price_field,
      platform_fee_raw] using h

/-- A row returned by `findJob` carries the looked-up id. -/
theorem findJob_id (s : DBState) (jid : Nat) (j : TowRequest)
    (h : findJob s jid = some j) : j.id = jid := by
  unfold findJob at h
  have := List.find?_some h
  simpa using this

/-- Looking a row up again after writing it back yields the written row,
provided the written row keeps the key. -/
theorem find?_map_ite (l : List TowRequest) (jid : Nat) (j j' : TowRequest)
    (h : l.find? (fun k => k.id == jid) = some j) (hid : j'.id = jid) :
    (l.map (fun k => if k.id = jid then j' else k)).find?
        (fun k => k.id == jid) = some j' := by
  induction l with
  | nil => simp at h
  | cons a t ih =>
    by_cases ha : a.id = jid
    · rw [List.map_cons, if_pos ha, List.find?_cons_of_pos _ (by simp [hid])]
    · rw [List.find?_cons_of_neg _ (by simp [ha])] at h
      rw [List.map_cons, if_neg ha, List.find?_cons_of_neg _ (by simp [ha])]
      exact ih h

/-- Relating `findJob` after `setJob` at the same key. -/
theorem findJob_setJob (s : DBState) (jid : Nat) (j j' : TowRequest)
    (h : findJob s jid = some j) (hid : j'.id = jid) :
    findJob (setJob s jid j') jid = some j' := by
  unfold findJob setJob at *
  exact find?_map_ite s.jobs jid j j' h hid

/-- When the gateway capture raises, `capture_payment` returns `False`
and writes nothing, whatever the store holds. -/
theorem capture_gateway_fail (s : DBState) (jid : Nat) (tOk : Bool) :
    capture_payment s jid false tOk = (false, s) := by
  unfold capture_payment
  rcases hf : findJob s jid with _ | j
  · simp
  · rcases hi : j.payment_intent_id with _ | i <;> simp [hi]

/-- C4 amended: when the assigned driver reports COMPLETED and the payment
capture fails at the gateway, the endpoint still returns success and the
job is committed with status COMPLETED and `completed_at` stamped; only
the payment side is untouched — `payment_status` keeps its prior value
and no transaction is recorded.  The capture attempt does happen before
the commit, but its failure does not block the commit. -/
theorem completed_commit_survives_capture_failure
    (s : DBState) (jid r now : Nat) (tOk : Bool) (j : TowRequest)
    (hj : findJob s jid = some j) (hr : j.driver_id = some r) :
    ∃ s', update_tow_status s jid r TowStatus.completed now false tOk
          = Except.ok s'
        ∧ (findJob s' jid).map TowRequest.status = some TowStatus.completed
        ∧ (findJob s' jid).map TowRequest.completed_at = some (some now)
        ∧ (findJob s' jid).map TowRequest.payment_status
            = some j.payment_status
        ∧ s'.transactions = s.transactions := by
  have hid : ({ stampTimestamp j TowStatus.completed now with
      status := TowStatus.completed } : TowRequest).id = jid := by
    have := findJob_id s jid j hj
    simpa [stampTimestamp] using this
  have hfind := findJob_setJob s jid j
    { stampTimestamp j TowStatus.completed now with
      status := TowStatus.completed } hj hid
  refine ⟨setJob s jid { stampTimestamp j TowStatus.completed now with
      status := TowStatus.completed }, ?_, ?_, ?_, ?_, rfl⟩
  · unfold update_tow_status
    rw [hj]
    simp [hr, capture_gateway_fail]
  · rw [hfind]
    rfl
  · rw [hfind]
    rfl
  · rw [hfind]
    rfl

theorem completed_commit_survives_capture_failure_witness :
    findJob preCompleteState 1 = some dropoffJob
      ∧ dropoffJob.driver_id = some 10
      ∧ ∃ s', update_tow_status preCompleteState 1 10 TowStatus.completed 9
            false true = Except.ok s'
          ∧ (findJob s' 1).map TowRequest.status = some TowStatus.completed
          ∧ (findJob s' 1).map TowRequest.completed_at = some (some 9)
          ∧ (findJob s' 1).map TowRequest.payment_status
              = some dropoffJob.payment_status
          ∧ s'.transactions = preCompleteState.transactions :=
  ⟨rfl, rfl,
    completed_commit_survives_capture_failure preCompleteState 1 10 9 true
      dropoffJob rfl rfl⟩

/-- C6 amended: refunding a job that has no payment reference attached is
a no-op that returns failure (`False`), not success: no REFUND
transaction is recorded and no payment status changes, but the caller is
told the refund did not happen. -/
theorem refund_no_intent_noop (s : DBState) (jid : Nat) (g : Bool)
    (j : TowRequest) (hj : findJob s jid = some j)
    (hi : j.payment_intent_id = none) :
    refund_payment s jid g = (false, s) := by
  unfold refund_payment
  rw [hj]
  simp [hi]

theorem refund_no_intent_noop_witness :
    findJob noIntentState 1 = some noIntentJob
      ∧ noIntentJob.payment_intent_id = none
      ∧ refund_payment noIntentState 1 true = (false, noIntentState) :=
  ⟨rfl, rfl, refund_no_intent_noop noIntentState 1 true noIntentJob rfl rfl⟩

/-- C5 amended: when `accept_tow_request` succeeds, the winner's own offer
for the job is `accepted` and every other offer for the job — pending or
already rejected alike, since the source expires every offer with
`driver_id != winner` — is `expired`; in particular no offer for the job
remains `pending`. -/
theorem accept_success_resolves_offers (s : DBState) (jid did now : Nat)
    (h : (accept_tow_request s jid did now).1 = true) :
    ∀ o ∈ (accept_tow_request s jid did now).2.offers,
      o.tow_request_id = jid →
        (o.driver_id = did → o.response = OfferResponse.accepted)
          ∧ (o.driver_id ≠ did → o.response = OfferResponse.expired)
          ∧ o.response ≠ OfferResponse.pending := by
  by_cases hc : acceptCheck s jid
  · intro o ho hjid
    rw [accept_tow_request, if_pos hc] at ho
    rcases List.mem_map.1 ho with ⟨o₀, _, rfl⟩
    by_cases h1 : o₀.tow_request_id = jid
    · by_cases h2 : o₀.driver_id = did
      · have hresp : (applyAcceptOffer o₀ jid did now).response
            = OfferResponse.accepted := by
          simp [applyAcceptOffer, h1, h2]
        have hdrv : (applyAcceptOffer o₀ jid did now).driver_id = did := by
          simp [applyAcceptOffer, h1, h2]
        exact ⟨fun _ => hresp, fun hne => absurd hdrv hne,
          by rw [hresp]; decide⟩
      · have hresp : (applyAcceptOffer o₀ jid did now).response
            = OfferResponse.expired := by
          simp [applyAcceptOffer, h1, h2]
        have hdrv : (applyAcceptOffer o₀ jid did now).driver_id
            = o₀.driver_id := by
          simp [applyAcceptOffer, h1, h2]
        exact ⟨fun heq => absurd (hdrv.symm.trans heq) h2, fun _ => hresp,
          by rw [hresp]; decide⟩
    · exfalso
      rw [applyAcceptOffer, if_neg h1] at hjid
      exact h1 hjid
  · rw [accept_tow_request, if_neg hc] at h
    simp at h

theorem accept_success_resolves_offers_witness :
    (accept_tow_request raceState 1 10 5).1 = true
      ∧ ∀ o ∈ (accept_tow_request raceState 1 10 5).2.offers,
          o.tow_request_id = 1 →
            (o.driver_id = 10 → o.response = OfferResponse.accepted)
              ∧ (o.driver_id ≠ 10 → o.response = OfferResponse.expired)
              ∧ o.response ≠ OfferResponse.pending :=
  ⟨by decide, accept_success_resolves_offers raceState 1 10 5 (by decide)⟩

/-- C7: with the service, vehicle-type, reason, time-of-day and surge
parameters held fixed and all rates non-negative, the unrounded customer
price `max(subtotal, driver_standard_rate * markup)` is monotonically
non-decreasing in distance beyond the included miles. -/
theorem customer_price_monotone (st : PricingSettings) (sp : ServiceTypeRow)
    (vp : VehicleTypeRow) (rp : TowReasonRow) (hour weekday : Nat)
    (is_surge : Bool) (d1 d2 : ℚ)
    (hpm : 0 ≤ sp.per_mile_rate)
    (hdpm : 0 ≤ st.DRIVER_PER_MILE_RATE)
    (hn : 0 ≤ st.NIGHT_SURCHARGE_MULTIPLIER)
    (hw : 0 ≤ st.WEEKEND_SURCHARGE_MULTIPLIER)
    (hsg : 0 ≤ st.SURGE_MULTIPLIER)
    (hmk : 0 ≤ markup_multiplier st)
    (hi : sp.included_miles ≤ d1) (h12 : d1 ≤ d2) :
    customer_price_raw st sp vp rp d1 hour weekday is_surge
      ≤ customer_price_raw st sp vp rp d2 hour weekday is_surge := by
  have htm : 0 ≤ get_time_multiplier st hour weekday := by
    unfold get_time_multiplier
    split_ifs
    · exact hn
    · exact hw
    · norm_num
  have hsf : 0 ≤ (if is_surge then st.SURGE_MULTIPLIER else (1:ℚ)) := by
    split_ifs
    · exact hsg
    · norm_num
  have hmax : max 0 (d1 - sp.included_miles)
      ≤ max 0 (d2 - sp.included_miles) :=
    max_le_max le_rfl (by linarith)
  have hsub : subtotalCalc st sp vp rp d1 hour weekday is_surge
      ≤ subtotalCalc st sp vp rp d2 hour weekday is_surge := by
    unfold subtotalCalc
    have hmul := mul_le_mul_of_nonneg_right hmax hpm
    exact mul_le_mul_of_nonneg_right
      (mul_le_mul_of_nonneg_right (by linarith) htm) hsf
  have hdsr : driver_standard_rate st d1 * markup_multiplier st
      ≤ driver_standard_rate st d2 * markup_multiplier st := by
    refine mul_le_mul_of_nonneg_right ?_ hmk
    unfold driver_standard_rate
    have := mul_le_mul_of_nonneg_right h12 hdpm
    linarith
  exact max_le_max hsub hdsr

theorem customer_price_monotone_witness :
    (0:ℚ) ≤ standardTow.per_mile_rate
      ∧ (0:ℚ) ≤ defaultSettings.DRIVER_PER_MILE_RATE
      ∧ (0:ℚ) ≤ defaultSettings.NIGHT_SURCHARGE_MULTIPLIER
      ∧ (0:ℚ) ≤ defaultSettings.WEEKEND_SURCHARGE_MULTIPLIER
      ∧ (0:ℚ) ≤ defaultSettings.SURGE_MULTIPLIER
      ∧ (0:ℚ) ≤ markup_multiplier defaultSettings
      ∧ standardTow.included_miles ≤ (6:ℚ)
      ∧ (6:ℚ) ≤ 7
      ∧ customer_price_raw defaultSettings standardTow sedanRow breakdownRow
          6 12 2 false
        ≤ customer_price_raw defaultSettings standardTow sedanRow
            breakdownRow 7 12 2 false :=
  ⟨by norm_num [standardTow], by norm_num [defaultSettings],
    by norm_num [defaultSettings], by norm_num [defaultSettings],
    by norm_num [defaultSettings],
    by norm_num [markup_multiplier, defaultSettings],
    by norm_num [standardTow], by norm_num,
    customer_price_monotone defaultSettings standardTow sedanRow breakdownRow
      12 2 false 6 7 (by norm_num [standardTow])
      (by norm_num [defaultSettings]) (by norm_num [defaultSettings])
      (by norm_num [defaultSettings]) (by norm_num [defaultSettings])
      (by norm_num [markup_multiplier, defaultSettings])
      (by norm_num [standardTow]) (by norm_num)⟩

/-- C8 amended: for positive speed, `calculate_eta` returns 0 at zero (or
negative) distance and `max(1, floor(distance/speed*60))` — truncation,
not ceiling — for positive distance; it is ≥ 1 for positive distance and
monotonically non-decreasing in distance. -/
theorem eta_truncates_with_floor_one (s d d1 d2 : ℚ) (hs : 0 < s) :
    calculate_eta 0 s = 0
      ∧ (0 < d → calculate_eta d s = max 1 (Int.floor (d / s * 60)))
      ∧ (0 < d → 1 ≤ calculate_eta d s)
      ∧ (0 ≤ d1 → d1 ≤ d2 → calculate_eta d1 s ≤ calculate_eta d2 s) := by
  have key : ∀ x : ℚ, 0 < x →
      calculate_eta x s = max 1 (Int.floor (x / s * 60)) := by
    intro x hx
    have hnn : 0 ≤ x / s * 60 := by positivity
    rw [calculate_eta, if_neg (not_le.2 hx), truncQ, if_pos hnn]
  refine ⟨by simp [calculate_eta], key d, ?_, ?_⟩
  · intro hd
    rw [key d hd]
    exact le_max_left 1 _
  · intro h1 h2
    rcases lt_or_eq_of_le h1 with hp1 | hz
    · have hp2 : 0 < d2 := lt_of_lt_of_le hp1 h2
      rw [key d1 hp1, key d2 hp2]
      refine max_le_max le_rfl (Int.floor_mono ?_)
      have hdiv : d1 / s ≤ d2 / s := by
        rw [div_le_div_iff hs hs]
        exact mul_le_mul_of_nonneg_right h2 (le_of_lt hs)
      exact mul_le_mul_of_nonneg_right hdiv (by norm_num)
    · have he1 : calculate_eta d1 s = 0 := by
        rw [← hz, calculate_eta, if_pos le_rfl]
      rw [he1]
      rcases le_or_lt d2 0 with hd2 | hd2
      · rw [calculate_eta, if_pos hd2]
      · rw [key d2 hd2]
        exact le_trans (by norm_num) (le_max_left 1 _)

theorem eta_truncates_with_floor_one_witness :
    (0:ℚ) < 35
      ∧ (calculate_eta 0 35 = 0
          ∧ ((0:ℚ) < 1 → calculate_eta 1 35 = max 1 (Int.floor ((1:ℚ) / 35 * 60)))
          ∧ ((0:ℚ) < 1 → 1 ≤ calculate_eta 1 35)
          ∧ ((0:ℚ) ≤ 1 → (1:ℚ) ≤ 2 → calculate_eta 1 35 ≤ calculate_eta 2 35)) :=
  ⟨by norm_num, eta_truncates_with_floor_one 35 1 1 2 (by norm_num)⟩

/-- C9: the haversine distance of `calculate_distance` is symmetric in its
two coordinate pairs and zero on a repeated pair, for all latitudes in
[-90, 90] and longitudes in [-180, 180]. -/
theorem haversine_symm_and_self (lat1 lon1 lat2 lon2 : ℝ)
    (h1 : -90 ≤ lat1) (h2 : lat1 ≤ 90) (h3 : -180 ≤ lon1) (h4 : lon1 ≤ 180)
    (h5 : -90 ≤ lat2) (h6 : lat2 ≤ 90) (h7 : -180 ≤ lon2)
    (h8 : lon2 ≤ 180) :
    calculate_distance (lat1, lon1) (lat2, lon2)
        = calculate_distance (lat2, lon2) (lat1, lon1)
      ∧ calculate_distance (lat1, lon1) (lat1, lon1) = 0 := by
  have key : ∀ x y : ℝ,
      Real.sin ((x - y) / 2) ^ 2 = Real.sin ((y - x) / 2) ^ 2 := by
    intro x y
    rw [show (x - y) / 2 = -((y - x) / 2) by ring, Real.sin_neg, neg_sq]
  constructor
  · show 2 * Real.arcsin (Real.sqrt
        (Real.sin ((toRadians lat2 - toRadians lat1) / 2) ^ 2
          + Real.cos (toRadians lat1) * Real.cos (toRadians lat2)
            * Real.sin ((toRadians lon2 - toRadians lon1) / 2) ^ 2)) * 3956
      = 2 * Real.arcsin (Real.sqrt
        (Real.sin ((toRadians lat1 - toRadians lat2) / 2) ^ 2
          + Real.cos (toRadians lat2) * Real.cos (toRadians lat1)
            * Real.sin ((toRadians lon1 - toRadians lon2) / 2) ^ 2)) * 3956
    rw [key (toRadians lat2) (toRadians lat1),
      key (toRadians lon2) (toRadians lon1),
      mul_comm (Real.cos (toRadians lat1)) (Real.cos (toRadians lat2))]
  · show 2 * Real.arcsin (Real.sqrt
        (Real.sin ((toRadians lat1 - toRadians lat1) / 2) ^ 2
          + Real.cos (toRadians lat1) * Real.cos (toRadians lat1)
            * Real.sin ((toRadians lon1 - toRadians lon1) / 2) ^ 2)) * 3956
      = 0
    rw [sub_self, sub_self, zero_div, Real.sin_zero]
    norm_num [Real.arcsin_zero]

theorem haversine_symm_and_self_witness :
    (-90 ≤ (40:ℝ)) ∧ ((40:ℝ) ≤ 90) ∧ (-180 ≤ (-74:ℝ)) ∧ ((-74:ℝ) ≤ 180)
      ∧ (-90 ≤ (42:ℝ)) ∧ ((42:ℝ) ≤ 90) ∧ (-180 ≤ (-73:ℝ)) ∧ ((-73:ℝ) ≤ 180)
      ∧ (calculate_distance (40, -74) (42, -73)
            = calculate_distance (42, -73) (40, -74)
          ∧ calculate_distance (40, -74) (40, -74) = 0) :=
  ⟨by norm_num, by norm_num, by norm_num, by norm_num, by norm_num,
    by norm_num, by norm_num, by norm_num,
    haversine_symm_and_self 40 (-74) 42 (-73) (by norm_num) (by norm_num)
      (by norm_num) (by norm_num) (by norm_num) (by norm_num) (by norm_num)
      (by norm_num)⟩

end TowApp
